import Mathlib

/-!
# Verification of the survey-report pipeline

A shallow embedding of the survey analytics scripts
(`data_analytics.py`, `data_analytics2.py`, `data_analytics3.py`,
`analytics5/data_analytics5.py`): load → clean column names → persist to a
single replace-on-write table → group-by/count aggregation → chi-square
association test → summary text.

Conventions of the embedding:
* a cell of the survey table is `Option String` (`none` models SQL `NULL`
  / pandas `NaN`);
* Python strings are modelled as `List Char` where character-level
  operations (strip / replace) matter;
* machine floats never matter for the claims checked here: percentages are
  modelled exactly over `ℚ`;
* a Python expression that can raise (`.values[0]` on an empty selection)
  is modelled as an `Option`, `none` standing for the raised exception.
-/

namespace Survey

/-- One respondent row, restricted to the four columns the scripts query
(after column-name normalization).  Each answer is free-form categorical
text; `none` models a missing answer (`NULL`/`NaN`). -/
structure SurveyRow where
  awareness : Option String
  knowWhom : Option String
  training : Option String
  gender : Option String
deriving DecidableEq, Repr

/-! ## Column-name normalization (Loader)

`data_analytics.py` line 12 (likewise `data_analytics2.py` line 19,
`data_analytics3.py` line 22):
`col.strip().replace(" ", "_").replace("?", "").replace(",", "").replace("(", "").replace(")", "").replace("/", "_")`

`analytics5/data_analytics5.py` line 22 is the same chain without the
`"("`/`")"` replacements.

Python `str.strip()` removes leading and trailing whitespace — the full
Unicode set recognised by `str.isspace()`, not just ASCII;
`str.replace(old, new)` replaces every occurrence.  Both are modelled
character-exactly on `List Char`. -/

/-- The characters Python `str.strip()` removes: exactly those with
`str.isspace()` true — ASCII whitespace, the separator control characters
`\x1c`–`\x1f`, NEL (`\x85`), no-break space (`\xa0`), and the Unicode
space and line/paragraph separators. -/
def pyIsSpace (c : Char) : Bool :=
  c = ' ' || c = '\t' || c = '\n' || c = '\r' || c = '\x0b' || c = '\x0c' ||
  c = '\x1c' || c = '\x1d' || c = '\x1e' || c = '\x1f' ||
  c = '\x85' || c = '\xa0' || c = '\u1680' ||
  c = '\u2000' || c = '\u2001' || c = '\u2002' || c = '\u2003' ||
  c = '\u2004' || c = '\u2005' || c = '\u2006' || c = '\u2007' ||
  c = '\u2008' || c = '\u2009' || c = '\u200a' ||
  c = '\u2028' || c = '\u2029' || c = '\u202f' || c = '\u205f' ||
  c = '\u3000'

/-- Remove leading characters satisfying `pyIsSpace`. -/
def lstrip : List Char → List Char
  | [] => []
  | a :: s => if pyIsSpace a then lstrip s else a :: s

/-- Python `str.strip()`: remove leading and trailing whitespace. -/
def pyStrip (s : List Char) : List Char :=
  (lstrip (lstrip s).reverse).reverse

/-- Python `str.replace(c, r)` for a one-character pattern `c`. -/
def replaceChar (c : Char) (r : List Char) : List Char → List Char
  | [] => []
  | a :: s => if a = c then r ++ replaceChar c r s else a :: replaceChar c r s

/-- Column-name cleaning of `data_analytics.py` line 12. -/
def normalizeCol (s : List Char) : List Char :=
  replaceChar '/' ['_']
    (replaceChar ')' []
      (replaceChar '(' []
        (replaceChar ',' []
          (replaceChar '?' []
            (replaceChar ' ' ['_'] (pyStrip s))))))

/-- Column-name cleaning of `analytics5/data_analytics5.py` line 22
(no parenthesis replacements). -/
def normalizeCol5 (s : List Char) : List Char :=
  replaceChar '/' ['_']
    (replaceChar ',' []
      (replaceChar '?' []
        (replaceChar ' ' ['_'] (pyStrip s))))

/-! ## Group-by / count aggregation (Aggregator)

SQL `SELECT k, COUNT(*) FROM survey GROUP BY k` produces one row per
distinct value of `k` — `NULL` included as its own group — with the number
of input rows carrying that value.  The embedding keeps one entry per
distinct value (via `dedup`) paired with its multiplicity; the claims
checked here are insensitive to the order of the groups. -/

/-- One `(group value, COUNT(*))` entry per distinct value of the list. -/
def groupCount {α : Type} [DecidableEq α] (l : List α) : List (α × Nat) :=
  l.dedup.map (fun v => (v, l.count v))

/-- The sum of the `Count` column of a summary table. -/
def sumCounts {α : Type} (t : List (α × Nat)) : Nat :=
  (t.map (fun p => p.2)).sum

/-- Model of `pandas.Series.value_counts()` (`data_analytics5.py` line 54): counts of
the distinct *non-null* values — `NaN` rows are dropped before counting. -/
def valueCounts (l : List (Option String)) : List (Option String × Nat) :=
  groupCount (l.filter (fun v => v.isSome))

/-- Model of `pandas.DataFrame.groupby([k1, k2]).size()` (`data_analytics5.py`
lines 59–60, 67–68, 80–81): rows where either grouped column is `NaN`
are dropped (`dropna=True` default), the rest are keyed by the pair. -/
def pairsDropNA (l : List (Option String × Option String)) :
    List (String × String) :=
  l.filterMap (fun p =>
    match p with
    | (some a, some b) => some (a, b)
    | _ => none)

/-! ## Persister

`df.to_sql("survey", conn, if_exists="replace", index=False)`
(`data_analytics.py` line 16, `data_analytics2.py` line 23,
`data_analytics3.py` line 38, `data_analytics5.py` line 33).

The relational store holds at most the single `survey` table, modelled as
`Option (List SurveyRow)` (`none` = table absent).  pandas `to_sql` has
three `if_exists` modes; the scripts always pass `"replace"`.  The outer
`Option` of the result models the `ValueError` the `"fail"` mode raises
when the table already exists. -/

/-- The contents of the single-table relational store. -/
def DB := Option (List SurveyRow)

/-- The `if_exists` modes of pandas `DataFrame.to_sql`. -/
inductive IfExists
  | fail
  | replace
  | append

/-- pandas `DataFrame.to_sql("survey", conn, if_exists=mode)`:
the store after writing `rows`, or `none` for the raised `ValueError`. -/
def to_sql (mode : IfExists) (db : DB) (rows : List SurveyRow) : Option DB :=
  match mode with
  | .fail =>
    match db with
    | some _ => none
    | none => some (some rows)
  | .replace => some (some rows)
  | .append => some (some ((fun (t : DB) => t.getD []) db ++ rows))

/-! ## Summary tables

The four aggregation queries.  SQL variant (`data_analytics.py`
lines 21–55): `GROUP BY` keeps `NULL` as a group value.  pandas variant
(`data_analytics5.py` lines 54–82): `value_counts` and `groupby` drop
null rows.  A summary table is rendered with an explicit header and
cell rows so that column order is part of the model. -/

/-- A rendered cell of a summary table. -/
inductive Cell
  | str (v : Option String)
  | nat (n : Nat)
deriving DecidableEq, Repr

/-- A summary table: header row plus data rows. -/
structure STable where
  header : List String
  rows : List (List Cell)
deriving DecidableEq, Repr

/-- Query `SELECT Awareness, COUNT(*) FROM survey GROUP BY Awareness`
(`data_analytics.py` lines 21–25). -/
def awarenessTableSQL (rows : List SurveyRow) : STable :=
  { header := ["Awareness", "Count"],
    rows := (groupCount (rows.map (fun r => r.awareness))).map
      (fun p => [Cell.str p.1, Cell.nat p.2]) }

/-- Query `SELECT Awareness, Know_Whom_To_Report, COUNT(*) … GROUP BY …`
(`data_analytics.py` lines 28–35). -/
def awarenessReportingTableSQL (rows : List SurveyRow) : STable :=
  { header := ["Awareness", "Know_Whom_To_Report", "Count"],
    rows := (groupCount (rows.map (fun r => (r.awareness, r.knowWhom)))).map
      (fun p => [Cell.str p.1.1, Cell.str p.1.2, Cell.nat p.2]) }

/-- Query `SELECT Training, Know_Whom_To_Report, COUNT(*) … GROUP BY …`
(`data_analytics.py` lines 38–45). -/
def trainingReportingTableSQL (rows : List SurveyRow) : STable :=
  { header := ["Training", "Know_Whom_To_Report", "Count"],
    rows := (groupCount (rows.map (fun r => (r.training, r.knowWhom)))).map
      (fun p => [Cell.str p.1.1, Cell.str p.1.2, Cell.nat p.2]) }

/-- Query `SELECT Gender, Awareness, COUNT(*) … GROUP BY …`
(`data_analytics.py` lines 48–55). -/
def genderAwarenessTableSQL (rows : List SurveyRow) : STable :=
  { header := ["Gender", "Awareness", "Count"],
    rows := (groupCount (rows.map (fun r => (r.gender, r.awareness)))).map
      (fun p => [Cell.str p.1.1, Cell.str p.1.2, Cell.nat p.2]) }

/-- Table `df['…'].value_counts().reset_index()` with columns renamed to
`['Awareness', 'Count']` (`data_analytics5.py` lines 54–55). -/
def awarenessTableVC (rows : List SurveyRow) : STable :=
  { header := ["Awareness", "Count"],
    rows := (valueCounts (rows.map (fun r => r.awareness))).map
      (fun p => [Cell.str p.1, Cell.nat p.2]) }

/-- Table `df.groupby([awareness, knowWhom]).size().reset_index(name='Count')`,
columns renamed `['Awareness', 'Know_Whom', 'Count']`
(`data_analytics5.py` lines 59–61). -/
def awarenessReportingTable5 (rows : List SurveyRow) : STable :=
  { header := ["Awareness", "Know_Whom", "Count"],
    rows := (groupCount (pairsDropNA
        (rows.map (fun r => (r.awareness, r.knowWhom))))).map
      (fun p => [Cell.str (some p.1.1), Cell.str (some p.1.2), Cell.nat p.2]) }

/-- Table `df.groupby([training, knowWhom]).size().reset_index(name='Count')`,
columns renamed `['Training', 'Know_Whom', 'Count']`
(`data_analytics5.py` lines 67–69). -/
def trainingReportingTable5 (rows : List SurveyRow) : STable :=
  { header := ["Training", "Know_Whom", "Count"],
    rows := (groupCount (pairsDropNA
        (rows.map (fun r => (r.training, r.knowWhom))))).map
      (fun p => [Cell.str (some p.1.1), Cell.str (some p.1.2), Cell.nat p.2]) }

/-- Table `df.groupby([gender, awareness]).size().reset_index(name='Count')`,
columns renamed `['Gender', 'Awareness', 'Count']`
(`data_analytics5.py` lines 80–82). -/
def genderAwarenessTable5 (rows : List SurveyRow) : STable :=
  { header := ["Gender", "Awareness", "Count"],
    rows := (groupCount (pairsDropNA
        (rows.map (fun r => (r.gender, r.awareness))))).map
      (fun p => [Cell.str (some p.1.1), Cell.str (some p.1.2), Cell.nat p.2]) }

/-- The `Count` column of a rendered summary table. -/
def countColumn (t : STable) : List Nat :=
  t.rows.filterMap (fun r =>
    match r.getLast? with
    | some (Cell.nat n) => some n
    | _ => none)

/-- The four summary tables of one run (SQL variant,
`data_analytics.py` lines 21–55). -/
structure Summaries where
  awareness : STable
  awarenessReporting : STable
  trainingReporting : STable
  genderAwareness : STable
deriving DecidableEq, Repr

/-- The Aggregator stage of `data_analytics.py`: all four summary tables
computed from the persisted `survey` table. -/
def aggregateAll (rows : List SurveyRow) : Summaries :=
  { awareness := awarenessTableSQL rows,
    awarenessReporting := awarenessReportingTableSQL rows,
    trainingReporting := trainingReportingTableSQL rows,
    genderAwareness := genderAwarenessTableSQL rows }

/-- Persist-then-aggregate: `to_sql(…, if_exists="replace")` into a store
with arbitrary prior contents, then run the four queries against the
stored table (`data_analytics.py` lines 15–55).  `none` models an aborted
run (never reached with `"replace"`). -/
def runAggregation (db : DB) (rows : List SurveyRow) : Option Summaries :=
  match to_sql .replace db rows with
  | some (some t) => some (aggregateAll t)
  | some none => none
  | none => none

/-! ## Awareness percentage (Report Composer)

`data_analytics.py` lines 102–103 (identically `data_analytics2.py`
lines 85–86):
```
total = awareness_df['Count'].sum()
yes_pct = awareness_df[awareness_df['Awareness'] == 'Yes']['Count'].values[0] / total * 100
```
`data_analytics5.py` line 90 computes the same figure from the
`value_counts` table, dividing by `len(df)`.

`df[df['Awareness'] == 'Yes']['Count'].values[0]` selects the rows whose
`Awareness` cell equals `'Yes'` and takes the first `Count`; on an empty
selection `.values[0]` raises `IndexError`, modelled by `none`. -/

/-- Selection `t[t[key] == v]['Count'].values[0]`: the `Count` of the first row of a
summary table whose group value is `v`; `none` models the `IndexError`
raised when no row matches. -/
def lookupCount (t : List (Option String × Nat)) (v : Option String) :
    Option Nat :=
  ((t.filter (fun p => p.1 = v)).head?).map (fun p => p.2)

/-- Figure `yes_pct` of `data_analytics.py` lines 102–103: first `Count` of the
`'Yes'` row of the SQL awareness table, divided by the sum of the `Count`
column, times 100 — exactly over `ℚ`. -/
def yes_pct (rows : List SurveyRow) : Option ℚ :=
  let adf := groupCount (rows.map (fun r => r.awareness))
  (lookupCount adf (some "Yes")).map
    (fun (k : Nat) => (k : ℚ) / (sumCounts adf : ℚ) * 100)

/-- The awareness percentage of `data_analytics5.py` line 90: the `'Yes'`
count of the `value_counts` table divided by `len(df)`, times 100. -/
def yes_pct5 (rows : List SurveyRow) : Option ℚ :=
  (lookupCount (valueCounts (rows.map (fun r => r.awareness))) (some "Yes")).map
    (fun (k : Nat) => (k : ℚ) / (rows.length : ℚ) * 100)

/-! ## Chi-square association test (Aggregator)

`analytics5/data_analytics5.py` lines 43–51:
```
def chi_square_test(df, col1, col2):
    contingency = pd.crosstab(df[col1], df[col2])
    if contingency.empty:
        return "… No data available for chi-square test.", None
    chi2, p, dof, expected = chi2_contingency(contingency)
    return "… χ² = …, p = … (dof=…)", p
```
`pd.crosstab` cross-tabulates the jointly non-null value pairs of the two
columns; `contingency.empty` holds exactly when there is no such pair.
-/

/-- Model of `pd.crosstab(df[col1], df[col2])`, represented by its underlying
multiset of jointly non-null value pairs (rows where either column is
`NaN` are dropped by `crosstab`). -/
def crosstabPairs (rows : List SurveyRow)
    (col1 col2 : SurveyRow → Option String) : List (String × String) :=
  pairsDropNA (rows.map (fun r => (col1 r, col2 r)))

/-- Modelled from the spec (the scipy library is outside the repository;
spec §4.2 and glossary: an association test "producing a test statistic,
p-value, and degrees of freedom"): `scipy.stats.chi2_contingency` on the
cross-tabulation of `pairs`.  Degrees of freedom are
`(rows − 1) · (cols − 1)`; in the degenerate `dof = 0` case (a table with
a single row or a single column) scipy returns the statistic `0` rather
than raising.  The statistic is `Σ (observed − expected)² / expected`
over the table cells, exact over `ℚ` (Yates continuity correction for
`dof = 1` is omitted; no claim depends on the numeric value). -/
def chi2_contingency (pairs : List (String × String)) : ℚ × Nat :=
  let rk := (pairs.map (fun p => p.1)).dedup
  let ck := (pairs.map (fun p => p.2)).dedup
  let dof := (rk.length - 1) * (ck.length - 1)
  if dof = 0 then (0, 0)
  else
    let N : ℚ := (pairs.length : ℚ)
    let chi2 : ℚ := (rk.map (fun a => (ck.map (fun b =>
      let o : ℚ := ((pairs.filter (fun p => decide (p = (a, b)))).length : ℚ)
      let e : ℚ :=
        ((pairs.filter (fun p => decide (p.1 = a))).length : ℚ) *
          ((pairs.filter (fun p => decide (p.2 = b))).length : ℚ) / N
      (o - e) * (o - e) / e)).sum)).sum
    (chi2, dof)

/-- The two possible returns of `chi_square_test`: the "no data" sentinel
message with `None` in place of a statistic, or a message carrying the
numeric statistic and `p`-value. -/
inductive ChiOutcome
  | noData
  | numeric (chi2 : ℚ) (dof : Nat)
deriving DecidableEq, Repr

/-- Function `chi_square_test(df, col1, col2)` of `data_analytics5.py`
lines 43–51. -/
def chi_square_test (rows : List SurveyRow)
    (col1 col2 : SurveyRow → Option String) : ChiOutcome :=
  let contingency := crosstabPairs rows col1 col2
  if contingency = [] then .noData
  else
    let s := chi2_contingency contingency
    .numeric s.1 s.2

/-! ## Loader

`pd.read_excel(file_path)` (`data_analytics.py` lines 8–9,
`data_analytics5.py` line 21).  pandas is outside the repository, so its
failure behaviour is modelled from the spec (§4.1: "fails with
FileNotFound or ParseError if the path is missing or the file is not a
valid spreadsheet"; output "an in-memory table"). -/

/-- Modelled from the spec: what the filesystem holds at a path — a valid
spreadsheet (with its table of rows) or a file that is not a valid
spreadsheet. -/
inductive FileContent
  | spreadsheet (t : List SurveyRow)
  | invalid
deriving DecidableEq

/-- Result of the Loader: the two failures of spec §4.1 or the loaded
in-memory table. -/
inductive LoadResult
  | fileNotFound
  | parseError
  | ok (t : List SurveyRow)
deriving DecidableEq

/-- Modelled from the spec: `pd.read_excel(path)` against a filesystem
`fs` (a map from paths to contents, `none` = missing path). -/
def read_excel (fs : String → Option FileContent) (path : String) :
    LoadResult :=
  match fs path with
  | none => .fileNotFound
  | some .invalid => .parseError
  | some (.spreadsheet t) => .ok t

/-! ## Base64 attachment (Report Composer)

`data_analytics5.py` lines 23–27 (likewise `data_analytics3.py`
lines 24–29):
```
df.to_excel(EMBED_XLSX, index=False)
with open(EMBED_XLSX, "rb") as f:
    encoded_excel = base64.b64encode(f.read()).decode()
```
The bytes of the re-exported spreadsheet on disk are base64-encoded and
the resulting ASCII text is embedded in the HTML report as a
`data:` URI.  The Python `base64` module is outside the repository; it is
modelled from the spec ("embedded as an encoded attachment": standard
base64 with `=` padding) on lists of byte values (`Nat` below 256). -/

/-- The standard base64 alphabet, `A–Z a–z 0–9 + /`. -/
def b64Alphabet : List Char :=
  ['A', 'B', 'C', 'D', 'E', 'F', 'G', 'H', 'I', 'J', 'K', 'L', 'M',
   'N', 'O', 'P', 'Q', 'R', 'S', 'T', 'U', 'V', 'W', 'X', 'Y', 'Z',
   'a', 'b', 'c', 'd', 'e', 'f', 'g', 'h', 'i', 'j', 'k', 'l', 'm',
   'n', 'o', 'p', 'q', 'r', 's', 't', 'u', 'v', 'w', 'x', 'y', 'z',
   '0', '1', '2', '3', '4', '5', '6', '7', '8', '9', '+', '/']

/-- The alphabet character of a 6-bit value. -/
def encChar (n : Nat) : Char :=
  b64Alphabet.getD n 'A'

/-- The 6-bit value of an alphabet character (`none` for characters
outside the alphabet, `'='` included). -/
def decChar (c : Char) : Option Nat :=
  if b64Alphabet.indexOf c < b64Alphabet.length then
    some (b64Alphabet.indexOf c)
  else
    none

/-- Modelled from the spec: Python `base64.b64encode` — three input bytes
become four alphabet characters; a trailing group of two or one byte is
padded with `'='`. -/
def b64encode : List Nat → List Char
  | a :: b :: c :: rest =>
    encChar (a / 4) :: encChar ((a % 4) * 16 + b / 16) ::
      encChar ((b % 16) * 4 + c / 64) :: encChar (c % 64) :: b64encode rest
  | [a, b] =>
    [encChar (a / 4), encChar ((a % 4) * 16 + b / 16),
     encChar ((b % 16) * 4), '=']
  | [a] =>
    [encChar (a / 4), encChar ((a % 4) * 16), '=', '=']
  | [] => []

/-- Attachment `encoded_excel` of `data_analytics5.py` lines 26–27
(`data_analytics3.py` lines 28–29): the base64 text of the bytes of the
re-exported spreadsheet copy, as embedded in the HTML report.
(`.decode()` of the ASCII base64 bytes is the identity on the character
sequence.) -/
def encoded_excel (fileBytes : List Nat) : List Char :=
  b64encode fileBytes

/-- Modelled from the spec: Python `base64.b64decode` — four characters
become three bytes; `'='` padding, legal only in the final group, trims
the last group to two or one byte.  `none` models the `binascii.Error`
raised on malformed input. -/
def b64decode : List Char → Option (List Nat)
  | [] => some []
  | c1 :: c2 :: c3 :: c4 :: rest =>
    match decChar c1, decChar c2 with
    | some v1, some v2 =>
      if c3 = '=' then
        if c4 = '=' then
          if rest = [] then some [v1 * 4 + v2 / 16] else none
        else none
      else
        match decChar c3 with
        | some v3 =>
          if c4 = '=' then
            if rest = [] then
              some [v1 * 4 + v2 / 16, (v2 % 16) * 16 + v3 / 4]
            else none
          else
            match decChar c4 with
            | some v4 =>
              (b64decode rest).map (fun t =>
                (v1 * 4 + v2 / 16) :: ((v2 % 16) * 16 + v3 / 4) ::
                  ((v3 % 4) * 64 + v4) :: t)
            | none => none
        | none => none
    | _, _ => none
  | _ => none

/-- Column order demanded of a summary table: the group-key headers first,
in specification order, the `Count` header last; every data row has one
cell per header and ends in a count cell. -/
def wellFormed (t : STable) (keys : List String) : Prop :=
  t.header = keys ++ ["Count"] ∧
  ∀ r ∈ t.rows, r.length = keys.length + 1 ∧
    ∃ n, r.getLast? = some (Cell.nat n)

/-- A two-respondent sample input: both aware, split on knowing whom to
report to. -/
def sampleRows : List SurveyRow :=
  [{ awareness := some "Yes", knowWhom := some "Yes",
     training := some "No", gender := some "Female" },
   { awareness := some "Yes", knowWhom := some "No",
     training := none, gender := some "Male" }]

/-- A sample input with no exact `'Yes'` awareness answer (a lowercase
`'yes'` and a `'No'`). -/
def noYesRows : List SurveyRow :=
  [{ awareness := some "yes", knowWhom := some "Yes",
     training := some "No", gender := some "Female" },
   { awareness := some "No", knowWhom := none,
     training := some "No", gender := some "Male" }]

/-- A one-respondent sample whose `knowWhom` answer is missing, so the
training × knowWhom contingency table is empty. -/
def nullWhomRows : List SurveyRow :=
  [{ awareness := some "No", knowWhom := none,
     training := some "No", gender := some "Male" }]

/-- A sample filesystem: a valid spreadsheet at `data.xlsx`, an invalid
file at `notes.txt`, nothing else. -/
def sampleFS : String → Option FileContent :=
  fun p =>
    if p = "data.xlsx" then some (.spreadsheet sampleRows)
    else if p = "notes.txt" then some .invalid
    else none

/-- Sum of counts over a `groupCount` table is the length of the input. -/
theorem sumCounts_groupCount {α : Type} [DecidableEq α] (l : List α) :
    sumCounts (groupCount l) = l.length := by
  unfold sumCounts groupCount
  rw [List.map_map]
  exact List.sum_map_count_dedup_eq_length l

/-- Lemma: `lookupCount` on a table keyed by distinct-value entries `(w, c w)`
returns `c v` exactly when `v` occurs among the keys. -/
theorem lookupCount_map_eq (c : Option String → Nat)
    (l' : List (Option String)) (v : Option String) :
    lookupCount (l'.map (fun w => (w, c w))) v =
      if v ∈ l' then some (c v) else none := by
  induction l' with
  | nil => simp [lookupCount]
  | cons a t ih =>
    unfold lookupCount at ih ⊢
    rw [List.map_cons, List.filter_cons]
    by_cases hav : a = v
    · subst hav
      simp
    · simp only [decide_eq_true_eq, hav, if_false, ih, List.mem_cons]
      simp [Ne.symm hav]

/-- Multiplicity as a filter length (stated over the `DecidableEq`-derived
`BEq` used by `groupCount`). -/
theorem count_eq_filter_length {α : Type} [DecidableEq α] (l : List α) (v : α) :
    l.count v = (l.filter (fun x => decide (x = v))).length := by
  induction l with
  | nil => rfl
  | cons a t ih =>
    rw [List.count_cons, List.filter_cons]
    by_cases h : a = v
    · simp [h, ih]
    · simp [h, ih]

/-- Lemma: `lookupCount` on a `groupCount` table returns the multiplicity of the
value in the raw column, when the value occurs, and `none` otherwise. -/
theorem lookupCount_groupCount (l : List (Option String)) (v : Option String) :
    lookupCount (groupCount l) v =
      if v ∈ l then some ((l.filter (fun x => decide (x = v))).length)
      else none := by
  unfold groupCount
  simp only [lookupCount_map_eq]
  by_cases hv : v ∈ l
  · simp [hv, List.mem_dedup, count_eq_filter_length]
  · simp [hv, List.mem_dedup]

/-- Decoding inverts encoding on each 6-bit value. -/
theorem decChar_encChar (n : Nat) (h : n < 64) :
    decChar (encChar n) = some n := by
  interval_cases n <;> decide

/-- Alphabet characters are never the padding character. -/
theorem encChar_ne_pad (n : Nat) (h : n < 64) : encChar n ≠ '=' := by
  interval_cases n <;> decide

/-- Base64 round trip: decoding the encoding of any byte list returns
exactly the original bytes. -/
theorem b64decode_b64encode : ∀ (bs : List Nat), (∀ x ∈ bs, x < 256) →
    b64decode (b64encode bs) = some bs
  | [], _ => rfl
  | [a], h => by
    have ha : a < 256 := h a (by simp)
    have h1 := decChar_encChar (a / 4) (by omega)
    have h2 := decChar_encChar ((a % 4) * 16) (by omega)
    simp [b64encode, b64decode, h1, h2]
    omega
  | [a, b], h => by
    have ha : a < 256 := h a (by simp)
    have hb : b < 256 := h b (by simp)
    have h1 := decChar_encChar (a / 4) (by omega)
    have h2 := decChar_encChar ((a % 4) * 16 + b / 16) (by omega)
    have h3 := decChar_encChar ((b % 16) * 4) (by omega)
    have hp3 := encChar_ne_pad ((b % 16) * 4) (by omega)
    simp [b64encode, b64decode, h1, h2, h3, hp3]
    omega
  | a :: b :: c :: rest, h => by
    have ha : a < 256 := h a (by simp)
    have hb : b < 256 := h b (by simp)
    have hc : c < 256 := h c (by simp)
    have ih := b64decode_b64encode rest (fun x hx => h x (by simp [hx]))
    have h1 := decChar_encChar (a / 4) (by omega)
    have h2 := decChar_encChar ((a % 4) * 16 + b / 16) (by omega)
    have h3 := decChar_encChar ((b % 16) * 4 + c / 64) (by omega)
    have h4 := decChar_encChar (c % 64) (by omega)
    have hp3 := encChar_ne_pad ((b % 16) * 4 + c / 64) (by omega)
    have hp4 := encChar_ne_pad (c % 64) (by omega)
    simp [b64encode, b64decode, h1, h2, h3, h4, hp3, hp4, ih]
    refine ⟨by omega, by omega, by omega⟩

/-! ## Properties of strip / replace used for the idempotence analysis -/

/-- Lemma: `lstrip` only keeps characters of the input. -/
theorem mem_lstrip {b : Char} : ∀ {s : List Char}, b ∈ lstrip s → b ∈ s := by
  intro s
  induction s with
  | nil => intro hb; exact absurd hb (List.not_mem_nil b)
  | cons a t ih =>
    intro hb
    rw [lstrip] at hb
    by_cases hsp : pyIsSpace a
    · rw [if_pos hsp] at hb
      exact List.mem_cons_of_mem a (ih hb)
    · rw [if_neg hsp] at hb
      exact hb

/-- Lemma: `pyStrip` only keeps characters of the input. -/
theorem mem_pyStrip {b : Char} {s : List Char} (hb : b ∈ pyStrip s) :
    b ∈ s := by
  unfold pyStrip at hb
  rw [List.mem_reverse] at hb
  have h1 := mem_lstrip hb
  rw [List.mem_reverse] at h1
  exact mem_lstrip h1

/-- Lemma: `lstrip` is the identity on lists with no whitespace characters. -/
theorem lstrip_eq_of_no_space {s : List Char}
    (hs : ∀ b ∈ s, pyIsSpace b = false) : lstrip s = s := by
  cases s with
  | nil => rfl
  | cons a t =>
    rw [lstrip, if_neg]
    simp [hs a (List.mem_cons_self a t)]

/-- Lemma: `pyStrip` is the identity on lists with no whitespace characters. -/
theorem pyStrip_eq_of_no_space {s : List Char}
    (hs : ∀ b ∈ s, pyIsSpace b = false) : pyStrip s = s := by
  unfold pyStrip
  rw [lstrip_eq_of_no_space hs]
  rw [lstrip_eq_of_no_space (fun b hb => hs b (List.mem_reverse.mp hb))]
  exact List.reverse_reverse s

/-- Characters of `replaceChar c r s` come from `r` or from `s`. -/
theorem mem_replaceChar {b c : Char} {r : List Char} :
    ∀ {s : List Char}, b ∈ replaceChar c r s → b ∈ r ∨ b ∈ s := by
  intro s
  induction s with
  | nil => intro hb; exact absurd hb (List.not_mem_nil b)
  | cons a t ih =>
    intro hb
    rw [replaceChar] at hb
    by_cases hac : a = c
    · rw [if_pos hac, List.mem_append] at hb
      rcases hb with hb | hb
      · exact Or.inl hb
      · rcases ih hb with hb | hb
        · exact Or.inl hb
        · exact Or.inr (List.mem_cons_of_mem a hb)
    · rw [if_neg hac] at hb
      rcases List.mem_cons.mp hb with hb | hb
      · exact Or.inr (hb ▸ List.mem_cons_self a t)
      · rcases ih hb with hb | hb
        · exact Or.inl hb
        · exact Or.inr (List.mem_cons_of_mem a hb)

/-- After `replaceChar c r`, the replaced character is gone (provided the
replacement does not reintroduce it). -/
theorem not_mem_replaceChar_self {c : Char} {r : List Char} (hc : c ∉ r) :
    ∀ {s : List Char}, c ∉ replaceChar c r s := by
  intro s
  induction s with
  | nil => exact List.not_mem_nil c
  | cons a t ih =>
    rw [replaceChar]
    by_cases hac : a = c
    · rw [if_pos hac]
      intro hmem
      rcases List.mem_append.mp hmem with hmem | hmem
      · exact hc hmem
      · exact ih hmem
    · rw [if_neg hac]
      intro hmem
      rcases List.mem_cons.mp hmem with hmem | hmem
      · exact hac hmem.symm
      · exact ih hmem

/-- Lemma: `replaceChar c r` is the identity when `c` does not occur. -/
theorem replaceChar_eq_of_not_mem {c : Char} {r : List Char} :
    ∀ {s : List Char}, c ∉ s → replaceChar c r s = s := by
  intro s
  induction s with
  | nil => intro _; rfl
  | cons a t ih =>
    intro hc
    rw [replaceChar, if_neg (fun hac : a = c => hc (hac ▸ List.mem_cons_self a t))]
    rw [ih (fun hct => hc (List.mem_cons_of_mem a hct))]

/-- A character absent from both the replacement text and the input is
absent from the output. -/
theorem not_mem_replaceChar_of {b c : Char} {r s : List Char}
    (hbr : b ∉ r) (hbs : b ∉ s) : b ∉ replaceChar c r s := by
  intro hmem
  rcases mem_replaceChar hmem with hb | hb
  · exact hbr hb
  · exact hbs hb

/-- Characters of a normalized column name are underscores or characters
of the original name. -/
theorem mem_normalizeCol {b : Char} {s : List Char}
    (hb : b ∈ normalizeCol s) : b = '_' ∨ b ∈ s := by
  unfold normalizeCol at hb
  rcases mem_replaceChar hb with hb | hb
  · exact Or.inl (List.mem_singleton.mp hb)
  rcases mem_replaceChar hb with hb | hb
  · exact absurd hb (List.not_mem_nil b)
  rcases mem_replaceChar hb with hb | hb
  · exact absurd hb (List.not_mem_nil b)
  rcases mem_replaceChar hb with hb | hb
  · exact absurd hb (List.not_mem_nil b)
  rcases mem_replaceChar hb with hb | hb
  · exact absurd hb (List.not_mem_nil b)
  rcases mem_replaceChar hb with hb | hb
  · exact Or.inl (List.mem_singleton.mp hb)
  exact Or.inr (mem_pyStrip hb)

/-- None of the six replaced characters survives into `normalizeCol s`. -/
theorem replaced_not_mem_normalizeCol {s : List Char} :
    ' ' ∉ normalizeCol s ∧ '?' ∉ normalizeCol s ∧ ',' ∉ normalizeCol s ∧
    '(' ∉ normalizeCol s ∧ ')' ∉ normalizeCol s ∧ '/' ∉ normalizeCol s := by
  unfold normalizeCol
  refine ⟨?_, ?_, ?_, ?_, ?_, ?_⟩
  · exact not_mem_replaceChar_of (by decide)
      (not_mem_replaceChar_of (by decide)
        (not_mem_replaceChar_of (by decide)
          (not_mem_replaceChar_of (by decide)
            (not_mem_replaceChar_of (by decide)
              (not_mem_replaceChar_self (by decide))))))
  · exact not_mem_replaceChar_of (by decide)
      (not_mem_replaceChar_of (by decide)
        (not_mem_replaceChar_of (by decide)
          (not_mem_replaceChar_of (by decide)
            (not_mem_replaceChar_self (by decide)))))
  · exact not_mem_replaceChar_of (by decide)
      (not_mem_replaceChar_of (by decide)
        (not_mem_replaceChar_of (by decide)
          (not_mem_replaceChar_self (by decide))))
  · exact not_mem_replaceChar_of (by decide)
      (not_mem_replaceChar_of (by decide)
        (not_mem_replaceChar_self (by decide)))
  · exact not_mem_replaceChar_of (by decide)
      (not_mem_replaceChar_self (by decide))
  · exact not_mem_replaceChar_self (by decide)

/-- On a name whose only whitespace is the plain space character,
`normalizeCol` is idempotent: its output contains no whitespace and none
of the replaced characters, so stripping and replacing again are
identities. -/
theorem normalizeCol_idem_of_space_only (s : List Char)
    (h : ∀ b ∈ s, pyIsSpace b = true → b = ' ') :
    normalizeCol (normalizeCol s) = normalizeCol s := by
  obtain ⟨hsp, hq, hcm, hop, hcp, hsl⟩ :=
    replaced_not_mem_normalizeCol (s := s)
  have hspace : ∀ b ∈ normalizeCol s, pyIsSpace b = false := by
    intro b hb
    rcases mem_normalizeCol hb with hu | hbs
    · subst hu; decide
    · by_contra hps
      have hps' : pyIsSpace b = true := by
        cases hpb : pyIsSpace b
        · exact absurd hpb hps
        · rfl
      have hbsp : b = ' ' := h b hbs hps'
      subst hbsp
      exact hsp hb
  conv =>
    lhs
    rw [normalizeCol]
  rw [pyStrip_eq_of_no_space hspace]
  rw [replaceChar_eq_of_not_mem hsp]
  rw [replaceChar_eq_of_not_mem hq]
  rw [replaceChar_eq_of_not_mem hcm]
  rw [replaceChar_eq_of_not_mem hop]
  rw [replaceChar_eq_of_not_mem hcp]
  rw [replaceChar_eq_of_not_mem hsl]

/-- Characters of an `analytics5`-normalized column name are underscores
or characters of the original name. -/
theorem mem_normalizeCol5 {b : Char} {s : List Char}
    (hb : b ∈ normalizeCol5 s) : b = '_' ∨ b ∈ s := by
  unfold normalizeCol5 at hb
  rcases mem_replaceChar hb with hb | hb
  · exact Or.inl (List.mem_singleton.mp hb)
  rcases mem_replaceChar hb with hb | hb
  · exact absurd hb (List.not_mem_nil b)
  rcases mem_replaceChar hb with hb | hb
  · exact absurd hb (List.not_mem_nil b)
  rcases mem_replaceChar hb with hb | hb
  · exact Or.inl (List.mem_singleton.mp hb)
  exact Or.inr (mem_pyStrip hb)

/-- None of the four replaced characters survives into
`normalizeCol5 s`. -/
theorem replaced_not_mem_normalizeCol5 {s : List Char} :
    ' ' ∉ normalizeCol5 s ∧ '?' ∉ normalizeCol5 s ∧ ',' ∉ normalizeCol5 s ∧
    '/' ∉ normalizeCol5 s := by
  unfold normalizeCol5
  refine ⟨?_, ?_, ?_, ?_⟩
  · exact not_mem_replaceChar_of (by decide)
      (not_mem_replaceChar_of (by decide)
        (not_mem_replaceChar_of (by decide)
          (not_mem_replaceChar_self (by decide))))
  · exact not_mem_replaceChar_of (by decide)
      (not_mem_replaceChar_of (by decide)
        (not_mem_replaceChar_self (by decide)))
  · exact not_mem_replaceChar_of (by decide)
      (not_mem_replaceChar_self (by decide))
  · exact not_mem_replaceChar_self (by decide)

/-- Idempotence of the `analytics5` variant on names whose only
whitespace is the plain space character. -/
theorem normalizeCol5_idem_of_space_only (s : List Char)
    (h : ∀ b ∈ s, pyIsSpace b = true → b = ' ') :
    normalizeCol5 (normalizeCol5 s) = normalizeCol5 s := by
  obtain ⟨hsp, hq, hcm, hsl⟩ := replaced_not_mem_normalizeCol5 (s := s)
  have hspace : ∀ b ∈ normalizeCol5 s, pyIsSpace b = false := by
    intro b hb
    rcases mem_normalizeCol5 hb with hu | hbs
    · subst hu; decide
    · by_contra hps
      have hps' : pyIsSpace b = true := by
        cases hpb : pyIsSpace b
        · exact absurd hpb hps
        · rfl
      have hbsp : b = ' ' := h b hbs hps'
      subst hbsp
      exact hsp hb
  conv =>
    lhs
    rw [normalizeCol5]
  rw [pyStrip_eq_of_no_space hspace]
  rw [replaceChar_eq_of_not_mem hsp]
  rw [replaceChar_eq_of_not_mem hq]
  rw [replaceChar_eq_of_not_mem hcm]
  rw [replaceChar_eq_of_not_mem hsl]

/-- Lemma: `countColumn` of a table whose rows all end in their count cell is the
list of counts. -/
theorem countColumn_mk {α : Type} (hd : List String) (l : List (α × Nat))
    (f : α × Nat → List Cell)
    (hf : ∀ p, (f p).getLast? = some (Cell.nat p.2)) :
    countColumn ⟨hd, l.map f⟩ = l.map (fun p => p.2) := by
  induction l with
  | nil => rfl
  | cons a t ih =>
    unfold countColumn at ih ⊢
    rw [List.map_cons, List.filterMap_cons, hf a]
    simp only [List.map_cons]
    rw [ih]

/-- Filtering for the non-null value `some v` is unaffected by first
dropping nulls. -/
theorem filter_some_filter_isSome (l : List (Option String)) (v : String) :
    (l.filter (fun x => x.isSome)).filter (fun x => decide (x = some v)) =
      l.filter (fun x => decide (x = some v)) := by
  induction l with
  | nil => rfl
  | cons a t ih =>
    by_cases ha : a = some v
    · subst ha
      simp [List.filter_cons, ih]
    · by_cases hs : a.isSome <;> simp [List.filter_cons, ha, hs, ih]

/-- C1: for every valid input table, the counts of each group-by summary
table sum to the number of input rows considered.  The SQL `GROUP BY`
variants (`data_analytics.py` lines 21–55) keep `NULL` as a group value,
so their counts sum to the full row count; the `value_counts` awareness
table and the pandas `groupby` tables (`data_analytics5.py` lines 54–82)
drop null rows first, so their counts sum to the number of rows surviving
the null-dropping policy. -/
theorem counts_sum_to_rows_considered (rows : List SurveyRow) :
    (countColumn (awarenessTableSQL rows)).sum = rows.length ∧
    (countColumn (awarenessReportingTableSQL rows)).sum = rows.length ∧
    (countColumn (trainingReportingTableSQL rows)).sum = rows.length ∧
    (countColumn (genderAwarenessTableSQL rows)).sum = rows.length ∧
    (countColumn (awarenessTableVC rows)).sum =
      ((rows.map (fun r => r.awareness)).filter (fun v => v.isSome)).length ∧
    (countColumn (awarenessReportingTable5 rows)).sum =
      (pairsDropNA (rows.map (fun r => (r.awareness, r.knowWhom)))).length ∧
    (countColumn (trainingReportingTable5 rows)).sum =
      (pairsDropNA (rows.map (fun r => (r.training, r.knowWhom)))).length ∧
    (countColumn (genderAwarenessTable5 rows)).sum =
      (pairsDropNA (rows.map (fun r => (r.gender, r.awareness)))).length := by
  refine ⟨?_, ?_, ?_, ?_, ?_, ?_, ?_, ?_⟩
  · have hcc := countColumn_mk ["Awareness", "Count"]
      (groupCount (rows.map (fun r => r.awareness)))
      (fun p => [Cell.str p.1, Cell.nat p.2]) (fun p => rfl)
    have hs := sumCounts_groupCount (rows.map (fun r => r.awareness))
    unfold sumCounts at hs
    rw [awarenessTableSQL, hcc, hs, List.length_map]
  · have hcc := countColumn_mk ["Awareness", "Know_Whom_To_Report", "Count"]
      (groupCount (rows.map (fun r => (r.awareness, r.knowWhom))))
      (fun p => [Cell.str p.1.1, Cell.str p.1.2, Cell.nat p.2]) (fun p => rfl)
    have hs := sumCounts_groupCount
      (rows.map (fun r => (r.awareness, r.knowWhom)))
    unfold sumCounts at hs
    rw [awarenessReportingTableSQL, hcc, hs, List.length_map]
  · have hcc := countColumn_mk ["Training", "Know_Whom_To_Report", "Count"]
      (groupCount (rows.map (fun r => (r.training, r.knowWhom))))
      (fun p => [Cell.str p.1.1, Cell.str p.1.2, Cell.nat p.2]) (fun p => rfl)
    have hs := sumCounts_groupCount
      (rows.map (fun r => (r.training, r.knowWhom)))
    unfold sumCounts at hs
    rw [trainingReportingTableSQL, hcc, hs, List.length_map]
  · have hcc := countColumn_mk ["Gender", "Awareness", "Count"]
      (groupCount (rows.map (fun r => (r.gender, r.awareness))))
      (fun p => [Cell.str p.1.1, Cell.str p.1.2, Cell.nat p.2]) (fun p => rfl)
    have hs := sumCounts_groupCount
      (rows.map (fun r => (r.gender, r.awareness)))
    unfold sumCounts at hs
    rw [genderAwarenessTableSQL, hcc, hs, List.length_map]
  · have hcc := countColumn_mk ["Awareness", "Count"]
      (valueCounts (rows.map (fun r => r.awareness)))
      (fun p => [Cell.str p.1, Cell.nat p.2]) (fun p => rfl)
    have hs := sumCounts_groupCount
      ((rows.map (fun r => r.awareness)).filter (fun v => v.isSome))
    unfold sumCounts at hs
    rw [awarenessTableVC, hcc, valueCounts, hs]
  · have hcc := countColumn_mk ["Awareness", "Know_Whom", "Count"]
      (groupCount (pairsDropNA (rows.map (fun r => (r.awareness, r.knowWhom)))))
      (fun p => [Cell.str (some p.1.1), Cell.str (some p.1.2), Cell.nat p.2])
      (fun p => rfl)
    have hs := sumCounts_groupCount
      (pairsDropNA (rows.map (fun r => (r.awareness, r.knowWhom))))
    unfold sumCounts at hs
    rw [awarenessReportingTable5, hcc, hs]
  · have hcc := countColumn_mk ["Training", "Know_Whom", "Count"]
      (groupCount (pairsDropNA (rows.map (fun r => (r.training, r.knowWhom)))))
      (fun p => [Cell.str (some p.1.1), Cell.str (some p.1.2), Cell.nat p.2])
      (fun p => rfl)
    have hs := sumCounts_groupCount
      (pairsDropNA (rows.map (fun r => (r.training, r.knowWhom))))
    unfold sumCounts at hs
    rw [trainingReportingTable5, hcc, hs]
  · have hcc := countColumn_mk ["Gender", "Awareness", "Count"]
      (groupCount (pairsDropNA (rows.map (fun r => (r.gender, r.awareness)))))
      (fun p => [Cell.str (some p.1.1), Cell.str (some p.1.2), Cell.nat p.2])
      (fun p => rfl)
    have hs := sumCounts_groupCount
      (pairsDropNA (rows.map (fun r => (r.gender, r.awareness))))
    unfold sumCounts at hs
    rw [genderAwarenessTable5, hcc, hs]

/-- C2: whenever the input table contains at least one exact `'Yes'`
awareness answer, the awareness percentage placed in the summary text —
both the SQL-table variant of `data_analytics.py` lines 102–103 /
`data_analytics2.py` lines 85–86 and the `value_counts` variant of
`data_analytics5.py` line 90 — equals (number of `'Yes'` rows / total
number of rows) × 100, exactly over `ℚ` (so the two sides also format
identically to one decimal place). -/
theorem yes_pct_eq_yes_over_total (rows : List SurveyRow)
    (h : some "Yes" ∈ rows.map (fun r => r.awareness)) :
    yes_pct rows =
      some ((((rows.map (fun r => r.awareness)).filter
          (fun v => decide (v = some "Yes"))).length : ℚ) /
        (rows.length : ℚ) * 100) ∧
    yes_pct5 rows =
      some ((((rows.map (fun r => r.awareness)).filter
          (fun v => decide (v = some "Yes"))).length : ℚ) /
        (rows.length : ℚ) * 100) := by
  constructor
  · simp only [yes_pct]
    rw [lookupCount_groupCount, if_pos h, sumCounts_groupCount,
      List.length_map]
    rfl
  · simp only [yes_pct5, valueCounts]
    have hmem : some "Yes" ∈
        (rows.map (fun r => r.awareness)).filter (fun v => v.isSome) :=
      List.mem_filter.mpr ⟨h, rfl⟩
    rw [lookupCount_groupCount, if_pos hmem,
      filter_some_filter_isSome (rows.map (fun r => r.awareness)) "Yes"]
    rfl

/-- Witness for C2 at the concrete two-row sample (both rows `'Yes'`). -/
theorem yes_pct_eq_yes_over_total_witness :
    some "Yes" ∈ sampleRows.map (fun r => r.awareness) ∧
    yes_pct sampleRows =
      some ((((sampleRows.map (fun r => r.awareness)).filter
          (fun v => decide (v = some "Yes"))).length : ℚ) /
        (sampleRows.length : ℚ) * 100) :=
  ⟨by decide, (yes_pct_eq_yes_over_total sampleRows (by decide)).1⟩

/-- C10: when no awareness cell is exactly `'Yes'` (all `'No'`, or labels
differing in case), the selection `awareness_df[awareness_df['Awareness']
== 'Yes']['Count'].values[0]` is empty and indexing it raises
`IndexError` (modelled by `none`) in both variants: no `0%` figure is
produced — the computation requires at least one `'Yes'` row. -/
theorem yes_pct_none_of_no_yes (rows : List SurveyRow)
    (h : some "Yes" ∉ rows.map (fun r => r.awareness)) :
    yes_pct rows = none ∧ yes_pct5 rows = none := by
  constructor
  · simp only [yes_pct]
    rw [lookupCount_groupCount, if_neg h]
    rfl
  · simp only [yes_pct5, valueCounts]
    have hmem : some "Yes" ∉
        (rows.map (fun r => r.awareness)).filter (fun v => v.isSome) :=
      fun hc => h (List.mem_of_mem_filter hc)
    rw [lookupCount_groupCount, if_neg hmem]
    rfl

/-- Witness for C10 at a concrete input whose awareness answers are
`'yes'` (lowercase) and `'No'`. -/
theorem yes_pct_none_of_no_yes_witness :
    some "Yes" ∉ noYesRows.map (fun r => r.awareness) ∧
    yes_pct noYesRows = none :=
  ⟨by decide, (yes_pct_none_of_no_yes noYesRows (by decide)).1⟩

/-- C3 counterexample: a concrete input on which the awareness column has
only one distinct value in the joint distribution (so the contingency
table is 1×2 — fewer than 2×2 populated cells), yet `chi_square_test`
does not return the "no data" sentinel: the `contingency.empty` guard of
`data_analytics5.py` line 47 only fires on an empty crosstab, and a 1×2
table proceeds to the numeric branch (`dof = 0`, χ² = 0). -/
theorem chi_square_small_table_counterexample :
    ((crosstabPairs sampleRows (fun r => r.awareness)
        (fun r => r.knowWhom)).map (fun p => p.1)).dedup.length = 1 ∧
    chi_square_test sampleRows (fun r => r.awareness)
        (fun r => r.knowWhom) ≠ ChiOutcome.noData := by
  constructor
  · decide
  · decide

/-- C3 as amended: `chi_square_test` returns the "no data" sentinel (and
no numeric statistic) exactly when the contingency table is empty — when
no input row has non-null values in both columns; on any non-empty
contingency table, 1×n tables included, it returns a numeric result. -/
theorem chi_square_noData_iff_empty (rows : List SurveyRow)
    (col1 col2 : SurveyRow → Option String) :
    (crosstabPairs rows col1 col2 = [] →
      chi_square_test rows col1 col2 = ChiOutcome.noData) ∧
    (crosstabPairs rows col1 col2 ≠ [] →
      ∃ q d, chi_square_test rows col1 col2 = ChiOutcome.numeric q d) := by
  constructor
  · intro h
    simp only [chi_square_test, h]
    rfl
  · intro h
    simp only [chi_square_test, if_neg h]
    exact ⟨(chi2_contingency (crosstabPairs rows col1 col2)).1,
      (chi2_contingency (crosstabPairs rows col1 col2)).2, rfl⟩

/-- Witness for the amended C3: the empty branch on an input with no
jointly non-null pair, the numeric branch on the 1×2 sample. -/
theorem chi_square_noData_iff_empty_witness :
    chi_square_test nullWhomRows (fun r => r.training)
        (fun r => r.knowWhom) = ChiOutcome.noData ∧
    ∃ q d, chi_square_test sampleRows (fun r => r.awareness)
        (fun r => r.knowWhom) = ChiOutcome.numeric q d :=
  ⟨(chi_square_noData_iff_empty nullWhomRows (fun r => r.training)
      (fun r => r.knowWhom)).1 (by decide),
    (chi_square_noData_iff_empty sampleRows (fun r => r.awareness)
      (fun r => r.knowWhom)).2 (by decide)⟩

/-- C4 counterexample: normalization is not idempotent on every string.
On `"a\t?"` the first pass strips nothing (the name ends in `'?'`),
removes the `'?'` and leaves a trailing tab; the second pass strips that
tab, giving a different name.  Both replacement chains
(`data_analytics.py` line 12, `data_analytics5.py` line 22) fail, and the
same happens with non-ASCII whitespace such as a trailing no-break space
`"a\xa0?"`. -/
theorem normalize_idem_counterexample :
    (normalizeCol (normalizeCol ['a', '\t', '?']) ≠
      normalizeCol ['a', '\t', '?'] ∧
    normalizeCol5 (normalizeCol5 ['a', '\t', '?']) ≠
      normalizeCol5 ['a', '\t', '?']) ∧
    normalizeCol (normalizeCol ['a', '\xa0', '?']) ≠
      normalizeCol ['a', '\xa0', '?'] := by
  refine ⟨⟨?_, ?_⟩, ?_⟩
  · decide
  · decide
  · decide

/-- C4 as amended: column-name normalization is idempotent on every
string whose whitespace characters (in Python's full `str.isspace()`
sense: tab, newline, carriage return, vertical tab, form feed, the
separator controls, NEL, no-break space and the Unicode space
separators) are all plain spaces — in particular on every
already-normalized name arising from such strings.  Holds for both
replacement chains. -/
theorem normalize_idem_of_space_only (s : List Char)
    (h : ∀ b ∈ s, pyIsSpace b = true → b = ' ') :
    normalizeCol (normalizeCol s) = normalizeCol s ∧
    normalizeCol5 (normalizeCol5 s) = normalizeCol5 s :=
  ⟨normalizeCol_idem_of_space_only s h, normalizeCol5_idem_of_space_only s h⟩

/-- Witness for the amended C4 on the concrete header
`"Age (yrs), now?"`. -/
theorem normalize_idem_of_space_only_witness :
    (∀ b ∈ ['A', 'g', 'e', ' ', '(', 'y', 'r', 's', ')', ',', ' ',
        'n', 'o', 'w', '?'], pyIsSpace b = true → b = ' ') ∧
    normalizeCol (normalizeCol ['A', 'g', 'e', ' ', '(', 'y', 'r', 's',
        ')', ',', ' ', 'n', 'o', 'w', '?']) =
      normalizeCol ['A', 'g', 'e', ' ', '(', 'y', 'r', 's', ')', ',',
        ' ', 'n', 'o', 'w', '?'] :=
  ⟨by decide,
    (normalize_idem_of_space_only ['A', 'g', 'e', ' ', '(', 'y', 'r',
      's', ')', ',', ' ', 'n', 'o', 'w', '?'] (by decide)).1⟩

/-- C5: the aggregation stage is a deterministic function of the input
table alone.  A run first replace-writes the input into the store, so the
summaries do not depend on any prior store contents, and two runs on
identical input produce identical summary tables. -/
theorem aggregation_deterministic (db1 db2 : DB) (rows : List SurveyRow) :
    runAggregation db1 rows = some (aggregateAll rows) ∧
    runAggregation db1 rows = runAggregation db2 rows :=
  ⟨rfl, rfl⟩

/-- C6: every summary table has group-key columns first, in specification
order, and the `Count` column last; each data row carries one cell per
header and ends with its count. -/
theorem summary_column_order (rows : List SurveyRow) :
    wellFormed (awarenessTableSQL rows) ["Awareness"] ∧
    wellFormed (awarenessReportingTableSQL rows)
      ["Awareness", "Know_Whom_To_Report"] ∧
    wellFormed (trainingReportingTableSQL rows)
      ["Training", "Know_Whom_To_Report"] ∧
    wellFormed (genderAwarenessTableSQL rows) ["Gender", "Awareness"] ∧
    wellFormed (awarenessTableVC rows) ["Awareness"] ∧
    wellFormed (awarenessReportingTable5 rows) ["Awareness", "Know_Whom"] ∧
    wellFormed (trainingReportingTable5 rows) ["Training", "Know_Whom"] ∧
    wellFormed (genderAwarenessTable5 rows) ["Gender", "Awareness"] := by
  refine ⟨⟨rfl, ?_⟩, ⟨rfl, ?_⟩, ⟨rfl, ?_⟩, ⟨rfl, ?_⟩,
    ⟨rfl, ?_⟩, ⟨rfl, ?_⟩, ⟨rfl, ?_⟩, ⟨rfl, ?_⟩⟩ <;>
    intro r hr <;>
    simp only [awarenessTableSQL, awarenessReportingTableSQL,
      trainingReportingTableSQL, genderAwarenessTableSQL, awarenessTableVC,
      awarenessReportingTable5, trainingReportingTable5,
      genderAwarenessTable5, List.mem_map] at hr <;>
    obtain ⟨p, _, rfl⟩ := hr <;>
    exact ⟨rfl, p.2, rfl⟩

/-- Witness for C6 at the two-row sample: the awareness summary row
`(Yes, 2)` has its count cell last. -/
theorem summary_column_order_witness :
    [Cell.str (some "Yes"), Cell.nat 2] ∈ (awarenessTableSQL sampleRows).rows ∧
    ([Cell.str (some "Yes"), Cell.nat 2].length = ["Awareness"].length + 1 ∧
      ∃ n, [Cell.str (some "Yes"), Cell.nat 2].getLast? =
        some (Cell.nat n)) :=
  ⟨by decide, (summary_column_order sampleRows).1.2
    [Cell.str (some "Yes"), Cell.nat 2] (by decide)⟩

/-- C7: `to_sql` with `if_exists="replace"` is replace-on-write — after
the Persister stage the store's single table holds exactly the written
rows, whatever it held before, and a run never accumulates rows across
prior contents. -/
theorem to_sql_replace_on_write (db : DB) (rows : List SurveyRow) :
    to_sql .replace db rows = some (some rows) :=
  rfl

/-- C8: the Loader fails with `FileNotFound` when the path is missing,
with a parse error when the file at the path is not a valid spreadsheet,
and returns the in-memory table otherwise. -/
theorem read_excel_cases (fs : String → Option FileContent) (path : String) :
    (fs path = none → read_excel fs path = LoadResult.fileNotFound) ∧
    (fs path = some FileContent.invalid →
      read_excel fs path = LoadResult.parseError) ∧
    (∀ t, fs path = some (FileContent.spreadsheet t) →
      read_excel fs path = LoadResult.ok t) := by
  refine ⟨?_, ?_, ?_⟩
  · intro h
    simp [read_excel, h]
  · intro h
    simp [read_excel, h]
  · intro t h
    simp [read_excel, h]

/-- Witness for C8 on the sample filesystem: a present spreadsheet loads,
a missing path is `FileNotFound`, an invalid file is a parse error. -/
theorem read_excel_cases_witness :
    read_excel sampleFS "data.xlsx" = LoadResult.ok sampleRows ∧
    read_excel sampleFS "missing.xlsx" = LoadResult.fileNotFound ∧
    read_excel sampleFS "notes.txt" = LoadResult.parseError :=
  ⟨(read_excel_cases sampleFS "data.xlsx").2.2 sampleRows (by decide),
    (read_excel_cases sampleFS "missing.xlsx").1 (by decide),
    (read_excel_cases sampleFS "notes.txt").2.1 (by decide)⟩

/-- C9: the encoded attachment round-trips — base64-decoding the
`encoded_excel` blob embedded in the HTML report yields exactly the bytes
of the re-exported spreadsheet copy written to disk
(`data_analytics5.py` lines 23–27, `data_analytics3.py` lines 24–29). -/
theorem encoded_excel_roundtrip (fileBytes : List Nat)
    (h : ∀ x ∈ fileBytes, x < 256) :
    b64decode (encoded_excel fileBytes) = some fileBytes :=
  b64decode_b64encode fileBytes h

/-- Witness for C9 on the four magic bytes of an `xlsx` (ZIP) file. -/
theorem encoded_excel_roundtrip_witness :
    (∀ x ∈ [80, 75, 3, 4], x < 256) ∧
    b64decode (encoded_excel [80, 75, 3, 4]) = some [80, 75, 3, 4] :=
  ⟨by decide, encoded_excel_roundtrip [80, 75, 3, 4] (by decide)⟩

end Survey
